import Mathlib

/-!
Shallow embedding of the PDF content-stream interpreter from
`src-tauri/src` (`models.rs`, `graphics_state.rs`, `path_ops.rs`,
`text_ops.rs`, `content_parser.rs`).

Modelling conventions, used throughout:

* `f32` values are modelled as exact rationals (`ℚ`).  Decimal literals in
  the source (`0.8`, `1.15`, `0.52`, …) are modelled by their decimal
  values; float rounding is not modelled.  The `i64 → f32` cast in
  `get_float_opt` is modelled as the exact inclusion `ℤ → ℚ`.
* Byte strings (`&[u8]`, `Vec<u8>`) are `List Nat` with entries `< 256`;
  decoded Rust `String`s are `List Nat` of Unicode code points.
* `f32::sqrt` (used only by `scale_x`/`scale_y`) is modelled by `ratSqrt`,
  which is exact on rationals that are squares of rationals — every value
  the theorems below evaluate it at — and is some rational otherwise.
* The `lopdf::Object` operand type is restricted to the constructors the
  interpreter inspects (`Integer`, `Real`, `String`, `Name`, `Array`) plus
  `Boolean`/`Null` standing for every "other" variant, which the
  interpreter treats uniformly.  The lopdf accessors `as_name`/`as_array`
  succeed exactly on `Name`/`Array` and fail otherwise.
* The Rust `Vec` state stack (push/pop/last at the back) is modelled as a
  `List` with the top at the head (`push` = cons, `pop` = tail).
-/

/-- PDF string format tag (lopdf `StringFormat`); carried but never read
by the interpreter. -/
inductive PdfStrFormat where
  | literal
  | hexadecimal
deriving DecidableEq, Repr

/-- PDF operand object (restriction of `lopdf::Object`, see header). -/
inductive Object where
  | Integer (i : Int)
  | Real (r : ℚ)
  | String (bytes : List Nat) (fmt : PdfStrFormat)
  | Name (bytes : List Nat)
  | Boolean (b : Bool)
  | Null
  | Array (objs : List Object)

/-- Accessor `lopdf::Object::as_name`: the name bytes for `Name`, failure
otherwise. -/
def Object.asName : Object → Option (List Nat)
  | .Name bytes => some bytes
  | _ => none

/-- Accessor `lopdf::Object::as_array`: the elements for `Array`, failure
otherwise. -/
def Object.asArray : Object → Option (List Object)
  | .Array objs => some objs
  | _ => none

/-- Code points of a Lean string literal, used to write concrete byte
strings and operator names. -/
def strBytes (s : String) : List Nat := s.toList.map Char.toNat

/-! ### UTF-8 decoding (Rust `std::str::from_utf8`, strict) -/

/-- Continuation byte test `0x80 ≤ b ≤ 0xBF`. -/
def isCont (b : Nat) : Bool := 0x80 ≤ b && b ≤ 0xBF

/-- Admissible second byte of a three-byte sequence with lead `b`
(RFC 3629 table: `E0` narrows to `A0–BF`, `ED` to `80–9F`). -/
def utf8Cont2Ok (b b1 : Nat) : Bool :=
  if b = 0xE0 then 0xA0 ≤ b1 && b1 ≤ 0xBF
  else if b = 0xED then 0x80 ≤ b1 && b1 ≤ 0x9F
  else isCont b1

/-- Admissible second byte of a four-byte sequence with lead `b`
(`F0` narrows to `90–BF`, `F4` to `80–8F`). -/
def utf8Cont3Ok (b b1 : Nat) : Bool :=
  if b = 0xF0 then 0x90 ≤ b1 && b1 ≤ 0xBF
  else if b = 0xF4 then 0x80 ≤ b1 && b1 ≤ 0x8F
  else isCont b1

/-- Decode one UTF-8 scalar value from the front of `l`; `none` on any
malformed or truncated sequence (strict, like Rust's validator). -/
def utf8DecodeOne : List Nat → Option (Nat × List Nat)
  | [] => none
  | b :: rest =>
    if b ≤ 0x7F then some (b, rest)
    else if 0xC2 ≤ b && b ≤ 0xDF then
      match rest with
      | b1 :: r => if isCont b1 then some ((b - 0xC0) * 0x40 + (b1 - 0x80), r) else none
      | [] => none
    else if 0xE0 ≤ b && b ≤ 0xEF then
      match rest with
      | b1 :: b2 :: r =>
        if utf8Cont2Ok b b1 && isCont b2 then
          some ((b - 0xE0) * 0x1000 + (b1 - 0x80) * 0x40 + (b2 - 0x80), r)
        else none
      | _ => none
    else if 0xF0 ≤ b && b ≤ 0xF4 then
      match rest with
      | b1 :: b2 :: b3 :: r =>
        if utf8Cont3Ok b b1 && isCont b2 && isCont b3 then
          some ((b - 0xF0) * 0x40000 + (b1 - 0x80) * 0x1000 + (b2 - 0x80) * 0x40 + (b3 - 0x80), r)
        else none
      | _ => none
    else none

/-- Fuelled strict decode loop; each successful step consumes at least one
byte, so fuel = input length always suffices. -/
def utf8DecodeLoop : Nat → List Nat → Option (List Nat)
  | _, [] => some []
  | 0, _ :: _ => none
  | fuel + 1, b :: rest =>
    match utf8DecodeOne (b :: rest) with
    | none => none
    | some (cp, r) => (utf8DecodeLoop fuel r).map (cp :: ·)

/-- Strict UTF-8 decode of a whole byte string: `some` of the code points
iff the bytes are valid UTF-8 (Rust `std::str::from_utf8`). -/
def utf8Decode (l : List Nat) : Option (List Nat) := utf8DecodeLoop l.length l

/-- Length of the maximal subpart consumed at a decode error (WHATWG
substitution of maximal subparts, as Rust's `from_utf8_lossy` does);
always at least 1. -/
def utf8InvalidSkip : List Nat → Nat
  | [] => 1
  | b :: rest =>
    if 0xE0 ≤ b && b ≤ 0xEF then
      match rest with
      | b1 :: _ => if utf8Cont2Ok b b1 then 2 else 1
      | [] => 1
    else if 0xF0 ≤ b && b ≤ 0xF4 then
      match rest with
      | b1 :: b2 :: _ =>
        if utf8Cont3Ok b b1 then (if isCont b2 then 3 else 2) else 1
      | [b1] => if utf8Cont3Ok b b1 then 2 else 1
      | [] => 1
    else 1

/-- Fuelled lossy decode loop (Rust `String::from_utf8_lossy`): each
malformed maximal subpart becomes one U+FFFD replacement character. -/
def utf8LossyLoop : Nat → List Nat → List Nat
  | _, [] => []
  | 0, _ :: _ => []
  | fuel + 1, b :: rest =>
    match utf8DecodeOne (b :: rest) with
    | some (cp, r) => cp :: utf8LossyLoop fuel r
    | none => 0xFFFD :: utf8LossyLoop fuel ((b :: rest).drop (utf8InvalidSkip (b :: rest)))

/-- Lossy UTF-8 decode of a whole byte string; never fails. -/
def utf8Lossy (l : List Nat) : List Nat := utf8LossyLoop l.length l

/-! ### UTF-16BE decoding (`content_parser.rs::decode_utf16be`) -/

/-- Big-endian 16-bit units of a byte string (`chunks_exact(2)`: a
trailing odd byte is dropped; the caller rejects odd lengths anyway). -/
def beChunks : List Nat → List Nat
  | b0 :: b1 :: r => (b0 * 256 + b1) :: beChunks r
  | _ => []

/-- Decode a UTF-16 unit sequence (Rust `String::from_utf16`): surrogate
pairs combine, any unpaired surrogate is an error. -/
def utf16Decode : List Nat → Option (List Nat)
  | [] => some []
  | u :: rest =>
    if 0xD800 ≤ u && u ≤ 0xDBFF then
      match rest with
      | u2 :: r2 =>
        if 0xDC00 ≤ u2 && u2 ≤ 0xDFFF then
          (utf16Decode r2).map ((0x10000 + (u - 0xD800) * 0x400 + (u2 - 0xDC00)) :: ·)
        else none
      | [] => none
    else if 0xDC00 ≤ u && u ≤ 0xDFFF then none
    else (utf16Decode rest).map (u :: ·)

/-- `decode_utf16be` from `content_parser.rs`: reject odd byte counts,
then decode big-endian units as UTF-16. -/
def decode_utf16be (bytes : List Nat) : Option (List Nat) :=
  if bytes.length % 2 ≠ 0 then none
  else utf16Decode (beChunks bytes)

/-! ### Rust string helpers used by the interpreter -/

/-- Unicode `White_Space` code points (Rust `char::is_whitespace`). -/
def isWhitespaceChar (c : Nat) : Bool :=
  c = 0x09 || c = 0x0A || c = 0x0B || c = 0x0C || c = 0x0D || c = 0x20 ||
  c = 0x85 || c = 0xA0 || c = 0x1680 || (0x2000 ≤ c && c ≤ 0x200A) ||
  c = 0x2028 || c = 0x2029 || c = 0x202F || c = 0x205F || c = 0x3000

/-- Rust `text.trim().is_empty()`: true iff every character is
whitespace. -/
def trimIsEmpty (l : List Nat) : Bool := l.all isWhitespaceChar

/-- ASCII lowercasing, modelling Rust `str::to_lowercase` on the ASCII
font-name alphabet the width heuristic inspects (the Unicode full
lowercasing of non-ASCII points is not modelled; no claim touches it). -/
def toLowerAscii (l : List Nat) : List Nat :=
  l.map (fun c => if 65 ≤ c && c ≤ 90 then c + 32 else c)

/-- Rust `str::contains` for a literal needle: some contiguous run of
`hay` equals `needle`. -/
def containsSeq (hay needle : List Nat) : Bool :=
  match hay with
  | [] => needle.isEmpty
  | _ :: t => needle.isPrefixOf hay || containsSeq t needle

/-! ### Transform matrix (`models.rs::TransformMatrix`) -/

/-- Rational square root modelling `f32::sqrt` for `scale_x`/`scale_y`;
exact on squares of rationals (see the header conventions). -/
def ratSqrt (q : ℚ) : ℚ := (Nat.sqrt q.num.toNat : ℚ) / (Nat.sqrt q.den : ℚ)

/-- 2D transformation matrix `[a, b, c, d, e, f]` from `models.rs`. -/
structure TransformMatrix where
  a : ℚ
  b : ℚ
  c : ℚ
  d : ℚ
  e : ℚ
  f : ℚ
deriving DecidableEq, Repr

namespace TransformMatrix

/-- `TransformMatrix::identity`. -/
def identity : TransformMatrix := ⟨1, 0, 0, 1, 0, 0⟩

/-- `TransformMatrix::translate`. -/
def translate (tx ty : ℚ) : TransformMatrix := ⟨1, 0, 0, 1, tx, ty⟩

/-- `TransformMatrix::scale`. -/
def scale (sx sy : ℚ) : TransformMatrix := ⟨sx, 0, 0, sy, 0, 0⟩

/-- `TransformMatrix::multiply`. -/
def multiply (self other : TransformMatrix) : TransformMatrix :=
  { a := self.a * other.a + self.b * other.c
    b := self.a * other.b + self.b * other.d
    c := self.c * other.a + self.d * other.c
    d := self.c * other.b + self.d * other.d
    e := self.e * other.a + self.f * other.c + other.e
    f := self.e * other.b + self.f * other.d + other.f }

/-- `TransformMatrix::transform_point`. -/
def transform_point (self : TransformMatrix) (x y : ℚ) : ℚ × ℚ :=
  (self.a * x + self.c * y + self.e, self.b * x + self.d * y + self.f)

/-- `TransformMatrix::scale_x` = `sqrt(a² + c²)`. -/
def scale_x (self : TransformMatrix) : ℚ := ratSqrt (self.a * self.a + self.c * self.c)

/-- `TransformMatrix::scale_y` = `sqrt(b² + d²)`. -/
def scale_y (self : TransformMatrix) : ℚ := ratSqrt (self.b * self.b + self.d * self.d)

end TransformMatrix

/-! ### Graphics state (`graphics_state.rs`) -/

/-- RGBA color, modelling the `[f32; 4]` arrays of the source. -/
structure Rgba where
  r : ℚ
  g : ℚ
  b : ℚ
  a : ℚ
deriving DecidableEq, Repr

/-- `GraphicsState` from `graphics_state.rs`. -/
structure GraphicsState where
  ctm : TransformMatrix
  fill_color : Rgba
  stroke_color : Rgba
  line_width : ℚ
  font_name : Option (List Nat)
  font_size : ℚ
  text_matrix : TransformMatrix
  line_matrix : TransformMatrix
  char_spacing : ℚ
  word_spacing : ℚ
  text_rise : ℚ
  leading : ℚ
deriving DecidableEq, Repr

/-- `impl Default for GraphicsState`. -/
def GraphicsState.default : GraphicsState :=
  { ctm := TransformMatrix.identity
    fill_color := ⟨0, 0, 0, 1⟩
    stroke_color := ⟨0, 0, 0, 1⟩
    line_width := 1
    font_name := none
    font_size := 12
    text_matrix := TransformMatrix.identity
    line_matrix := TransformMatrix.identity
    char_spacing := 0
    word_spacing := 0
    text_rise := 0
    leading := 0 }

/-- `cmyk_to_rgb` from `graphics_state.rs`. -/
def cmyk_to_rgb (c m y k : ℚ) : ℚ × ℚ × ℚ :=
  ((1 - c) * (1 - k), (1 - m) * (1 - k), (1 - y) * (1 - k))

/-! ### Path operations (`models.rs::PathCommand`, `path_ops.rs`) -/

/-- `PathCommand` from `models.rs`. -/
inductive PathCommand where
  | MoveTo (x y : ℚ)
  | LineTo (x y : ℚ)
  | CurveTo (x1 y1 x2 y2 x y : ℚ)
  | ClosePath
deriving DecidableEq, Repr

/-- `Bounds` from `models.rs`. -/
structure Bounds where
  x : ℚ
  y : ℚ
  width : ℚ
  height : ℚ
deriving DecidableEq, Repr

/-- `Bounds::new`. -/
def Bounds.new (x y width height : ℚ) : Bounds := ⟨x, y, width, height⟩

/-- `ExtractedPath` from `path_ops.rs`. -/
structure ExtractedPath where
  commands : List PathCommand
  stroke_color : Option Rgba
  fill_color : Option Rgba
  line_width : ℚ
  bounds : Bounds
  transform : TransformMatrix
deriving DecidableEq, Repr

/-- Running min/max accumulator of `transform_path` (the four `mut`
locals `min_x`, `min_y`, `max_x`, `max_y`). -/
structure BoundsAcc where
  min_x : ℚ
  min_y : ℚ
  max_x : ℚ
  max_y : ℚ
deriving DecidableEq, Repr

/-- Exact value of `f32::MAX` = `(2 − 2⁻²³)·2¹²⁷`, the initial `min_x`/`min_y`. -/
def f32MAX : ℚ := 2 ^ 128 - 2 ^ 104

/-- `update_bounds` from `path_ops.rs`. -/
def update_bounds (x y : ℚ) (acc : BoundsAcc) : BoundsAcc :=
  { min_x := min acc.min_x x
    min_y := min acc.min_y y
    max_x := max acc.max_x x
    max_y := max acc.max_y y }

/-- `transform_command` from `path_ops.rs`: transform through the CTM,
flip Y against the page height, fold the point(s) into the bounds. -/
def transform_command (cmd : PathCommand) (ctm : TransformMatrix) (page_height : ℚ)
    (acc : BoundsAcc) : PathCommand × BoundsAcc :=
  match cmd with
  | .MoveTo x y =>
    let p := ctm.transform_point x y
    let ty := page_height - p.2
    (.MoveTo p.1 ty, update_bounds p.1 ty acc)
  | .LineTo x y =>
    let p := ctm.transform_point x y
    let ty := page_height - p.2
    (.LineTo p.1 ty, update_bounds p.1 ty acc)
  | .CurveTo x1 y1 x2 y2 x y =>
    let p1 := ctm.transform_point x1 y1
    let p2 := ctm.transform_point x2 y2
    let p := ctm.transform_point x y
    let ty1 := page_height - p1.2
    let ty2 := page_height - p2.2
    let ty := page_height - p.2
    (.CurveTo p1.1 ty1 p2.1 ty2 p.1 ty,
      update_bounds p.1 ty (update_bounds p2.1 ty2 (update_bounds p1.1 ty1 acc)))
  | .ClosePath => (.ClosePath, acc)

/-- Mapping of `transform_command` over the command list, threading the
bounds accumulator left to right as the source's iterator does. -/
def transform_commands (cmds : List PathCommand) (ctm : TransformMatrix)
    (page_height : ℚ) (acc : BoundsAcc) : List PathCommand × BoundsAcc :=
  match cmds with
  | [] => ([], acc)
  | cmd :: rest =>
    let r := transform_command cmd ctm page_height acc
    let rs := transform_commands rest ctm page_height r.2
    (r.1 :: rs.1, rs.2)

/-- `transform_path` from `path_ops.rs`. -/
def transform_path (commands : List PathCommand) (stroke fill : Option Rgba)
    (line_width : ℚ) (ctm : TransformMatrix) (page_height : ℚ) : ExtractedPath :=
  let r := transform_commands commands ctm page_height ⟨f32MAX, f32MAX, -f32MAX, -f32MAX⟩
  { commands := r.1
    stroke_color := stroke
    fill_color := fill
    line_width := line_width * |ctm.scale_x|
    bounds := Bounds.new r.2.min_x r.2.min_y (max (r.2.max_x - r.2.min_x) 1)
        (max (r.2.max_y - r.2.min_y) 1)
    transform := ctm }

/-! ### Text operations (`text_ops.rs`) -/

/-- `ExtractedText` from `text_ops.rs`. -/
structure ExtractedText where
  text : List Nat
  x : ℚ
  y : ℚ
  width : ℚ
  height : ℚ
  font_name : List Nat
  font_size : ℚ
  color : Rgba
  transform : TransformMatrix
deriving DecidableEq, Repr

/-- `calculate_text_width` from `text_ops.rs`. -/
def calculate_text_width (text : List Nat) (font_size : ℚ) (font_name : List Nat) : ℚ :=
  let char_count : ℚ := text.length
  let lower := toLowerAscii font_name
  let width_factor : ℚ :=
    if containsSeq lower (strBytes "courier") || containsSeq lower (strBytes "mono") then 6/10
    else if containsSeq lower (strBytes "times") then 45/100
    else 52/100
  char_count * font_size * width_factor

/-- `create_text` from `text_ops.rs`. -/
def create_text (text : List Nat) (state : GraphicsState) (page_height : ℚ) : ExtractedText :=
  let combined := state.ctm.multiply state.text_matrix
  let pdf_x := combined.e
  let pdf_y := combined.f + state.text_rise
  let scale := max |combined.scale_y| (1/10)
  let effective_font_size := state.font_size * scale
  let font_name := state.font_name.getD (strBytes "Helvetica")
  let width := calculate_text_width text effective_font_size font_name
  let height := effective_font_size * (115/100)
  let ascent := effective_font_size * (8/10)
  let screen_y := page_height - pdf_y - ascent
  { text := text
    x := pdf_x
    y := screen_y
    width := max width 1
    height := max height 1
    font_name := font_name
    font_size := effective_font_size
    color := state.fill_color
    transform := combined }

/-! ### Parse context and operand helpers (`content_parser.rs`) -/

/-- `ParseContext` from `content_parser.rs` (capacity hints dropped; the
state stack has its top at the head, see the header conventions). -/
structure ParseContext where
  texts : List ExtractedText
  paths : List ExtractedPath
  state_stack : List GraphicsState
  current_path : List PathCommand
  path_start : ℚ × ℚ
  current_point : ℚ × ℚ
  page_height : ℚ
deriving DecidableEq, Repr

namespace ParseContext

/-- `ParseContext::new`: one default graphics state on the stack. -/
def new (page_height : ℚ) : ParseContext :=
  { texts := []
    paths := []
    state_stack := [GraphicsState.default]
    current_path := []
    path_start := (0, 0)
    current_point := (0, 0)
    page_height := page_height }

/-- `ParseContext::state`: the top of the stack (total here via the
default, justified by the never-empty invariant the source relies on). -/
def state (ctx : ParseContext) : GraphicsState :=
  ctx.state_stack.headD GraphicsState.default

/-- `ParseContext::state_mut` followed by a field update: rewrite the top
entry in place. -/
def withTop (f : GraphicsState → GraphicsState) (ctx : ParseContext) : ParseContext :=
  { ctx with
    state_stack :=
      match ctx.state_stack with
      | [] => []
      | s :: rest => f s :: rest }

end ParseContext

/-- `get_float_opt` from `content_parser.rs`: numeric operand lookup,
`none` for a missing or non-numeric operand. -/
def get_float_opt (ops : List Object) (idx : Nat) : Option ℚ :=
  match ops[idx]? with
  | some (.Integer i) => some (i : ℚ)
  | some (.Real r) => some r
  | _ => none

/-- `get_float` from `content_parser.rs`: like `get_float_opt` with
default `0.0`. -/
def get_float (ops : List Object) (idx : Nat) : ℚ :=
  (get_float_opt ops idx).getD 0

/-- `extract_text_from_object` from `content_parser.rs`. -/
def extract_text_from_object (obj : Object) : Option (List Nat) :=
  match obj with
  | .String bytes _ =>
    match utf8Decode bytes with
    | some s => some s
    | none =>
      match bytes with
      | b0 :: b1 :: _ =>
        if b0 = 0xFE && b1 = 0xFF then decode_utf16be (bytes.drop 2)
        else some (utf8Lossy bytes)
      | _ => some (utf8Lossy bytes)
  | .Name bytes => some (utf8Lossy bytes)
  | _ => none

/-- `extract_string` from `content_parser.rs`. -/
def extract_string (ops : List Object) (idx : Nat) : Option (List Nat) :=
  (ops[idx]?).bind extract_text_from_object

/-- `parse_matrix` from `content_parser.rs`. -/
def parse_matrix (ops : List Object) : TransformMatrix :=
  { a := get_float ops 0, b := get_float ops 1
    c := get_float ops 2, d := get_float ops 3
    e := get_float ops 4, f := get_float ops 5 }

namespace ParseContext

/-! Operator bodies, one definition per method of `impl ParseContext`. -/

/-- `op_cm`. -/
def op_cm (ctx : ParseContext) (ops : List Object) : ParseContext :=
  if ops.length ≥ 6 then
    let m := parse_matrix ops
    withTop (fun s => { s with ctm := s.ctm.multiply m }) ctx
  else ctx

/-- `op_w`. -/
def op_w (ctx : ParseContext) (ops : List Object) : ParseContext :=
  match get_float_opt ops 0 with
  | some w => withTop (fun s => { s with line_width := w }) ctx
  | none => ctx

/-- `op_m`. -/
def op_m (ctx : ParseContext) (ops : List Object) : ParseContext :=
  match get_float_opt ops 0, get_float_opt ops 1 with
  | some x, some y =>
    { ctx with
      current_path := ctx.current_path ++ [.MoveTo x y]
      path_start := (x, y)
      current_point := (x, y) }
  | _, _ => ctx

/-- `op_l`. -/
def op_l (ctx : ParseContext) (ops : List Object) : ParseContext :=
  match get_float_opt ops 0, get_float_opt ops 1 with
  | some x, some y =>
    { ctx with
      current_path := ctx.current_path ++ [.LineTo x y]
      current_point := (x, y) }
  | _, _ => ctx

/-- `op_c`. -/
def op_c (ctx : ParseContext) (ops : List Object) : ParseContext :=
  if ops.length ≥ 6 then
    { ctx with
      current_path := ctx.current_path ++
        [.CurveTo (get_float ops 0) (get_float ops 1) (get_float ops 2)
          (get_float ops 3) (get_float ops 4) (get_float ops 5)]
      current_point := (get_float ops 4, get_float ops 5) }
  else ctx

/-- `op_v`: first control point is the current point. -/
def op_v (ctx : ParseContext) (ops : List Object) : ParseContext :=
  if ops.length ≥ 4 then
    { ctx with
      current_path := ctx.current_path ++
        [.CurveTo ctx.current_point.1 ctx.current_point.2 (get_float ops 0)
          (get_float ops 1) (get_float ops 2) (get_float ops 3)]
      current_point := (get_float ops 2, get_float ops 3) }
  else ctx

/-- `op_y`: second control point equals the endpoint. -/
def op_y (ctx : ParseContext) (ops : List Object) : ParseContext :=
  if ops.length ≥ 4 then
    let x := get_float ops 2
    let y := get_float ops 3
    { ctx with
      current_path := ctx.current_path ++
        [.CurveTo (get_float ops 0) (get_float ops 1) x y x y]
      current_point := (x, y) }
  else ctx

/-- `op_h`. -/
def op_h (ctx : ParseContext) : ParseContext :=
  { ctx with
    current_path := ctx.current_path ++ [.ClosePath]
    current_point := ctx.path_start }

/-- `op_re`: rectangle expands to five commands. -/
def op_re (ctx : ParseContext) (ops : List Object) : ParseContext :=
  if ops.length ≥ 4 then
    let x := get_float ops 0
    let y := get_float ops 1
    let w := get_float ops 2
    let h := get_float ops 3
    { ctx with
      current_path := ctx.current_path ++
        [.MoveTo x y, .LineTo (x + w) y, .LineTo (x + w) (y + h),
          .LineTo x (y + h), .ClosePath]
      path_start := (x, y)
      current_point := (x, y) }
  else ctx

/-- `paint_stroke`: note the trailing `ClosePath` for the closed variants
is pushed before the emptiness check, exactly as in the source. -/
def paint_stroke (ctx : ParseContext) (close : Bool) : ParseContext :=
  let ctx := if close then { ctx with current_path := ctx.current_path ++ [.ClosePath] } else ctx
  if ctx.current_path ≠ [] then
    { ctx with
      paths := ctx.paths ++ [transform_path ctx.current_path (some ctx.state.stroke_color)
        none ctx.state.line_width ctx.state.ctm ctx.page_height]
      current_path := [] }
  else ctx

/-- `paint_fill`. -/
def paint_fill (ctx : ParseContext) : ParseContext :=
  if ctx.current_path ≠ [] then
    { ctx with
      paths := ctx.paths ++ [transform_path ctx.current_path none
        (some ctx.state.fill_color) ctx.state.line_width ctx.state.ctm ctx.page_height]
      current_path := [] }
  else ctx

/-- `paint_both`. -/
def paint_both (ctx : ParseContext) (close : Bool) : ParseContext :=
  let ctx := if close then { ctx with current_path := ctx.current_path ++ [.ClosePath] } else ctx
  if ctx.current_path ≠ [] then
    { ctx with
      paths := ctx.paths ++ [transform_path ctx.current_path (some ctx.state.stroke_color)
        (some ctx.state.fill_color) ctx.state.line_width ctx.state.ctm ctx.page_height]
      current_path := [] }
  else ctx

/-- `op_g`. -/
def op_g (ctx : ParseContext) (ops : List Object) : ParseContext :=
  match get_float_opt ops 0 with
  | some g => withTop (fun s => { s with fill_color := ⟨g, g, g, 1⟩ }) ctx
  | none => ctx

/-- `op_G`. -/
def op_G (ctx : ParseContext) (ops : List Object) : ParseContext :=
  match get_float_opt ops 0 with
  | some g => withTop (fun s => { s with stroke_color := ⟨g, g, g, 1⟩ }) ctx
  | none => ctx

/-- `op_rg`. -/
def op_rg (ctx : ParseContext) (ops : List Object) : ParseContext :=
  if ops.length ≥ 3 then
    withTop (fun s => { s with
      fill_color := ⟨get_float ops 0, get_float ops 1, get_float ops 2, 1⟩ }) ctx
  else ctx

/-- `op_RG`. -/
def op_RG (ctx : ParseContext) (ops : List Object) : ParseContext :=
  if ops.length ≥ 3 then
    withTop (fun s => { s with
      stroke_color := ⟨get_float ops 0, get_float ops 1, get_float ops 2, 1⟩ }) ctx
  else ctx

/-- `op_k`. -/
def op_k (ctx : ParseContext) (ops : List Object) : ParseContext :=
  if ops.length ≥ 4 then
    let rgb := cmyk_to_rgb (get_float ops 0) (get_float ops 1) (get_float ops 2) (get_float ops 3)
    withTop (fun s => { s with fill_color := ⟨rgb.1, rgb.2.1, rgb.2.2, 1⟩ }) ctx
  else ctx

/-- `op_K`. -/
def op_K (ctx : ParseContext) (ops : List Object) : ParseContext :=
  if ops.length ≥ 4 then
    let rgb := cmyk_to_rgb (get_float ops 0) (get_float ops 1) (get_float ops 2) (get_float ops 3)
    withTop (fun s => { s with stroke_color := ⟨rgb.1, rgb.2.1, rgb.2.2, 1⟩ }) ctx
  else ctx

/-- `op_Tf`: the font name is set only when the first operand is a
`Name`; the size is set regardless from the second operand. -/
def op_Tf (ctx : ParseContext) (ops : List Object) : ParseContext :=
  if ops.length ≥ 2 then
    let ctx :=
      match (ops.headD .Null).asName with
      | some name => withTop (fun s => { s with font_name := some (utf8Lossy name) }) ctx
      | none => ctx
    withTop (fun s => { s with font_size := get_float ops 1 }) ctx
  else ctx

/-- `op_BT`. -/
def op_BT (ctx : ParseContext) : ParseContext :=
  withTop (fun s => { s with
    text_matrix := TransformMatrix.identity
    line_matrix := TransformMatrix.identity }) ctx

/-- `op_Tm`. -/
def op_Tm (ctx : ParseContext) (ops : List Object) : ParseContext :=
  if ops.length ≥ 6 then
    let m := parse_matrix ops
    withTop (fun s => { s with text_matrix := m, line_matrix := m }) ctx
  else ctx

/-- `op_Td`. -/
def op_Td (ctx : ParseContext) (ops : List Object) : ParseContext :=
  match get_float_opt ops 0, get_float_opt ops 1 with
  | some tx, some ty =>
    let translate := TransformMatrix.translate tx ty
    withTop (fun s =>
      let lm := s.line_matrix.multiply translate
      { s with line_matrix := lm, text_matrix := lm }) ctx
  | _, _ => ctx

/-- `op_TD`. -/
def op_TD (ctx : ParseContext) (ops : List Object) : ParseContext :=
  match get_float_opt ops 0, get_float_opt ops 1 with
  | some tx, some ty =>
    let translate := TransformMatrix.translate tx ty
    withTop (fun s =>
      let lm := s.line_matrix.multiply translate
      { s with leading := -ty, line_matrix := lm, text_matrix := lm }) ctx
  | _, _ => ctx

/-- `op_Tstar`. -/
def op_Tstar (ctx : ParseContext) : ParseContext :=
  let leading := ctx.state.leading
  let translate := TransformMatrix.translate 0 (-leading)
  withTop (fun s =>
    let lm := s.line_matrix.multiply translate
    { s with line_matrix := lm, text_matrix := lm }) ctx

/-- `op_Tj`. -/
def op_Tj (ctx : ParseContext) (ops : List Object) : ParseContext :=
  match extract_string ops 0 with
  | some text =>
    if ¬ trimIsEmpty text then
      { ctx with texts := ctx.texts ++ [create_text text ctx.state ctx.page_height] }
    else ctx
  | none => ctx

/-- Contribution of one `TJ` array element to the combined string (the
body of the `for item in array` loop in `op_TJ`). -/
def tjItem (item : Object) : List Nat :=
  match item with
  | .String bytes _ =>
    (match utf8Decode bytes with
     | some s => s
     | none =>
       match bytes with
       | b0 :: b1 :: _ =>
         if b0 = 0xFE && b1 = 0xFF then (decode_utf16be (bytes.drop 2)).getD []
         else utf8Lossy bytes
       | _ => utf8Lossy bytes)
  | .Integer _ | .Real _ =>
    (match get_float_opt [item] 0 with
     | some adj => if adj < -100 then [0x20] else []
     | none => [])
  | _ => []

/-- The `combined` accumulator of `op_TJ` after the loop. -/
def tjCombine (arr : List Object) : List Nat :=
  arr.foldl (fun acc item => acc ++ tjItem item) []

/-- `op_TJ`. -/
def op_TJ (ctx : ParseContext) (ops : List Object) : ParseContext :=
  match ops with
  | [] => ctx
  | o :: _ =>
    match o.asArray with
    | some arr =>
      let combined := tjCombine arr
      if ¬ trimIsEmpty combined then
        { ctx with texts := ctx.texts ++ [create_text combined ctx.state ctx.page_height] }
      else ctx
    | none => ctx

/-- `op_quote` (the `'` operator): `T*` then `Tj`. -/
def op_quote (ctx : ParseContext) (ops : List Object) : ParseContext :=
  op_Tj (op_Tstar ctx) ops

/-- `op_dquote` (the `"` operator): set word/char spacing, `T*`, show. -/
def op_dquote (ctx : ParseContext) (ops : List Object) : ParseContext :=
  if ops.length ≥ 3 then
    let ctx := withTop (fun s => { s with word_spacing := get_float ops 0 }) ctx
    let ctx := withTop (fun s => { s with char_spacing := get_float ops 1 }) ctx
    let ctx := op_Tstar ctx
    match extract_string ops 2 with
    | some text =>
      if ¬ trimIsEmpty text then
        { ctx with texts := ctx.texts ++ [create_text text ctx.state ctx.page_height] }
      else ctx
    | none => ctx
  else ctx

/-- Operator classification: one constructor per arm of the `match op`
in `process_operator` (arms joined by `|` in the source share one
constructor), plus `other` for the silently-ignored default arm. -/
inductive PdfOp where
  | q | Qpop | cm | w | m | l | c | v | yop | h | re
  | S | sclose | fill | Bboth | bclose | n
  | g | G | rg | RG | k | K
  | Tc | Tw | TL | Ts | Tf
  | BT | Tm | Td | TD | Tstar
  | Tj | TJ | quote | dquote
  | other
deriving DecidableEq, Repr

/-- Mapping of operator strings to `PdfOp` arms, in source order. -/
def classify (op : String) : PdfOp :=
  if op = "q" then .q
  else if op = "Q" then .Qpop
  else if op = "cm" then .cm
  else if op = "w" then .w
  else if op = "m" then .m
  else if op = "l" then .l
  else if op = "c" then .c
  else if op = "v" then .v
  else if op = "y" then .yop
  else if op = "h" then .h
  else if op = "re" then .re
  else if op = "S" then .S
  else if op = "s" then .sclose
  else if op = "f" || op = "F" || op = "f*" then .fill
  else if op = "B" || op = "B*" then .Bboth
  else if op = "b" || op = "b*" then .bclose
  else if op = "n" then .n
  else if op = "g" then .g
  else if op = "G" then .G
  else if op = "rg" then .rg
  else if op = "RG" then .RG
  else if op = "k" then .k
  else if op = "K" then .K
  else if op = "Tc" then .Tc
  else if op = "Tw" then .Tw
  else if op = "TL" then .TL
  else if op = "Ts" then .Ts
  else if op = "Tf" then .Tf
  else if op = "BT" then .BT
  else if op = "Tm" then .Tm
  else if op = "Td" then .Td
  else if op = "TD" then .TD
  else if op = "T*" then .Tstar
  else if op = "Tj" then .Tj
  else if op = "TJ" then .TJ
  else if op = String.mk [Char.ofNat 39] then .quote
  else if op = String.mk [Char.ofNat 34] then .dquote
  else .other

/-- `ParseContext::process_operator`: the dispatch table. -/
def process_operator (ctx : ParseContext) (op : String) (operands : List Object) :
    ParseContext :=
  match classify op with
  | .q => { ctx with state_stack := ctx.state :: ctx.state_stack }
  | .Qpop =>
    if ctx.state_stack.length > 1 then { ctx with state_stack := ctx.state_stack.tail }
    else ctx
  | .cm => op_cm ctx operands
  | .w => op_w ctx operands
  | .m => op_m ctx operands
  | .l => op_l ctx operands
  | .c => op_c ctx operands
  | .v => op_v ctx operands
  | .yop => op_y ctx operands
  | .h => op_h ctx
  | .re => op_re ctx operands
  | .S => paint_stroke ctx false
  | .sclose => paint_stroke ctx true
  | .fill => paint_fill ctx
  | .Bboth => paint_both ctx false
  | .bclose => paint_both ctx true
  | .n => { ctx with current_path := [] }
  | .g => op_g ctx operands
  | .G => op_G ctx operands
  | .rg => op_rg ctx operands
  | .RG => op_RG ctx operands
  | .k => op_k ctx operands
  | .K => op_K ctx operands
  | .Tc =>
    (match get_float_opt operands 0 with
     | some v => withTop (fun s => { s with char_spacing := v }) ctx
     | none => ctx)
  | .Tw =>
    (match get_float_opt operands 0 with
     | some v => withTop (fun s => { s with word_spacing := v }) ctx
     | none => ctx)
  | .TL =>
    (match get_float_opt operands 0 with
     | some v => withTop (fun s => { s with leading := v }) ctx
     | none => ctx)
  | .Ts =>
    (match get_float_opt operands 0 with
     | some v => withTop (fun s => { s with text_rise := v }) ctx
     | none => ctx)
  | .Tf => op_Tf ctx operands
  | .BT => op_BT ctx
  | .Tm => op_Tm ctx operands
  | .Td => op_Td ctx operands
  | .TD => op_TD ctx operands
  | .Tstar => op_Tstar ctx
  | .Tj => op_Tj ctx operands
  | .TJ => op_TJ ctx operands
  | .quote => op_quote ctx operands
  | .dquote => op_dquote ctx operands
  | .other => ctx

end ParseContext

/-- Run the per-page interpreter loop of `parse_page_content` on an
already-decoded operator stream. -/
def runOps (ops : List (String × List Object)) (page_height : ℚ) : ParseContext :=
  ops.foldl (fun ctx p => ParseContext.process_operator ctx p.1 p.2) (ParseContext.new page_height)

namespace ParseContext

/-! Dispatch equations: one per row of the operator table, each holding
definitionally. -/

@[simp] lemma process_q (ctx : ParseContext) (ops : List Object) :
    process_operator ctx "q" ops = { ctx with state_stack := ctx.state :: ctx.state_stack } := rfl

@[simp] lemma process_Q (ctx : ParseContext) (ops : List Object) :
    process_operator ctx "Q" ops =
      (if ctx.state_stack.length > 1 then { ctx with state_stack := ctx.state_stack.tail }
       else ctx) := rfl

@[simp] lemma process_cm (ctx : ParseContext) (ops : List Object) :
    process_operator ctx "cm" ops = op_cm ctx ops := rfl

@[simp] lemma process_w (ctx : ParseContext) (ops : List Object) :
    process_operator ctx "w" ops = op_w ctx ops := rfl

@[simp] lemma process_m (ctx : ParseContext) (ops : List Object) :
    process_operator ctx "m" ops = op_m ctx ops := rfl

@[simp] lemma process_l (ctx : ParseContext) (ops : List Object) :
    process_operator ctx "l" ops = op_l ctx ops := rfl

@[simp] lemma process_c (ctx : ParseContext) (ops : List Object) :
    process_operator ctx "c" ops = op_c ctx ops := rfl

@[simp] lemma process_v (ctx : ParseContext) (ops : List Object) :
    process_operator ctx "v" ops = op_v ctx ops := rfl

@[simp] lemma process_y (ctx : ParseContext) (ops : List Object) :
    process_operator ctx "y" ops = op_y ctx ops := rfl

@[simp] lemma process_h (ctx : ParseContext) (ops : List Object) :
    process_operator ctx "h" ops = op_h ctx := rfl

@[simp] lemma process_re (ctx : ParseContext) (ops : List Object) :
    process_operator ctx "re" ops = op_re ctx ops := rfl

@[simp] lemma process_S (ctx : ParseContext) (ops : List Object) :
    process_operator ctx "S" ops = paint_stroke ctx false := rfl

@[simp] lemma process_s (ctx : ParseContext) (ops : List Object) :
    process_operator ctx "s" ops = paint_stroke ctx true := rfl

@[simp] lemma process_f (ctx : ParseContext) (ops : List Object) :
    process_operator ctx "f" ops = paint_fill ctx := rfl

@[simp] lemma process_F (ctx : ParseContext) (ops : List Object) :
    process_operator ctx "F" ops = paint_fill ctx := rfl

@[simp] lemma process_fstar (ctx : ParseContext) (ops : List Object) :
    process_operator ctx "f*" ops = paint_fill ctx := rfl

@[simp] lemma process_B (ctx : ParseContext) (ops : List Object) :
    process_operator ctx "B" ops = paint_both ctx false := rfl

@[simp] lemma process_Bstar (ctx : ParseContext) (ops : List Object) :
    process_operator ctx "B*" ops = paint_both ctx false := rfl

@[simp] lemma process_b (ctx : ParseContext) (ops : List Object) :
    process_operator ctx "b" ops = paint_both ctx true := rfl

@[simp] lemma process_bstar (ctx : ParseContext) (ops : List Object) :
    process_operator ctx "b*" ops = paint_both ctx true := rfl

@[simp] lemma process_n (ctx : ParseContext) (ops : List Object) :
    process_operator ctx "n" ops = { ctx with current_path := [] } := rfl

@[simp] lemma process_g (ctx : ParseContext) (ops : List Object) :
    process_operator ctx "g" ops = op_g ctx ops := rfl

@[simp] lemma process_G (ctx : ParseContext) (ops : List Object) :
    process_operator ctx "G" ops = op_G ctx ops := rfl

@[simp] lemma process_rg (ctx : ParseContext) (ops : List Object) :
    process_operator ctx "rg" ops = op_rg ctx ops := rfl

@[simp] lemma process_RG (ctx : ParseContext) (ops : List Object) :
    process_operator ctx "RG" ops = op_RG ctx ops := rfl

@[simp] lemma process_k (ctx : ParseContext) (ops : List Object) :
    process_operator ctx "k" ops = op_k ctx ops := rfl

@[simp] lemma process_K (ctx : ParseContext) (ops : List Object) :
    process_operator ctx "K" ops = op_K ctx ops := rfl

@[simp] lemma process_Tc (ctx : ParseContext) (ops : List Object) :
    process_operator ctx "Tc" ops =
      (match get_float_opt ops 0 with
       | some v => withTop (fun s => { s with char_spacing := v }) ctx
       | none => ctx) := rfl

@[simp] lemma process_Tw (ctx : ParseContext) (ops : List Object) :
    process_operator ctx "Tw" ops =
      (match get_float_opt ops 0 with
       | some v => withTop (fun s => { s with word_spacing := v }) ctx
       | none => ctx) := rfl

@[simp] lemma process_TL (ctx : ParseContext) (ops : List Object) :
    process_operator ctx "TL" ops =
      (match get_float_opt ops 0 with
       | some v => withTop (fun s => { s with leading := v }) ctx
       | none => ctx) := rfl

@[simp] lemma process_Ts (ctx : ParseContext) (ops : List Object) :
    process_operator ctx "Ts" ops =
      (match get_float_opt ops 0 with
       | some v => withTop (fun s => { s with text_rise := v }) ctx
       | none => ctx) := rfl

@[simp] lemma process_Tf (ctx : ParseContext) (ops : List Object) :
    process_operator ctx "Tf" ops = op_Tf ctx ops := rfl

@[simp] lemma process_BT (ctx : ParseContext) (ops : List Object) :
    process_operator ctx "BT" ops = op_BT ctx := rfl

@[simp] lemma process_Tm (ctx : ParseContext) (ops : List Object) :
    process_operator ctx "Tm" ops = op_Tm ctx ops := rfl

@[simp] lemma process_Td (ctx : ParseContext) (ops : List Object) :
    process_operator ctx "Td" ops = op_Td ctx ops := rfl

@[simp] lemma process_TD (ctx : ParseContext) (ops : List Object) :
    process_operator ctx "TD" ops = op_TD ctx ops := rfl

@[simp] lemma process_Tstar (ctx : ParseContext) (ops : List Object) :
    process_operator ctx "T*" ops = op_Tstar ctx := rfl

@[simp] lemma process_Tj (ctx : ParseContext) (ops : List Object) :
    process_operator ctx "Tj" ops = op_Tj ctx ops := rfl

@[simp] lemma process_TJ (ctx : ParseContext) (ops : List Object) :
    process_operator ctx "TJ" ops = op_TJ ctx ops := rfl

@[simp] lemma process_quote (ctx : ParseContext) (ops : List Object) :
    process_operator ctx (String.mk [Char.ofNat 39]) ops = op_quote ctx ops := rfl

@[simp] lemma process_dquote (ctx : ParseContext) (ops : List Object) :
    process_operator ctx (String.mk [Char.ofNat 34]) ops = op_dquote ctx ops := rfl

end ParseContext

namespace ParseContext

/-! Stack-shape lemmas: every operator body either leaves the stack
untouched, rewrites its top entry in place, pushes one copy, or pops
under the depth guard. -/

@[simp] lemma withTop_stack_length (f : GraphicsState → GraphicsState) (ctx : ParseContext) :
    (withTop f ctx).state_stack.length = ctx.state_stack.length := by
  cases h : ctx.state_stack <;> simp [withTop, h]

@[simp] lemma op_cm_stack (ctx : ParseContext) (ops : List Object) :
    (op_cm ctx ops).state_stack.length = ctx.state_stack.length := by
  unfold op_cm; split_ifs <;> simp

@[simp] lemma op_w_stack (ctx : ParseContext) (ops : List Object) :
    (op_w ctx ops).state_stack.length = ctx.state_stack.length := by
  unfold op_w; cases h : get_float_opt ops 0 <;> simp [h]

@[simp] lemma op_m_stack (ctx : ParseContext) (ops : List Object) :
    (op_m ctx ops).state_stack = ctx.state_stack := by
  unfold op_m
  cases h0 : get_float_opt ops 0 <;> cases h1 : get_float_opt ops 1 <;> simp [h0, h1]

@[simp] lemma op_l_stack (ctx : ParseContext) (ops : List Object) :
    (op_l ctx ops).state_stack = ctx.state_stack := by
  unfold op_l
  cases h0 : get_float_opt ops 0 <;> cases h1 : get_float_opt ops 1 <;> simp [h0, h1]

@[simp] lemma op_c_stack (ctx : ParseContext) (ops : List Object) :
    (op_c ctx ops).state_stack = ctx.state_stack := by
  unfold op_c; split_ifs <;> rfl

@[simp] lemma op_v_stack (ctx : ParseContext) (ops : List Object) :
    (op_v ctx ops).state_stack = ctx.state_stack := by
  unfold op_v; split_ifs <;> rfl

@[simp] lemma op_y_stack (ctx : ParseContext) (ops : List Object) :
    (op_y ctx ops).state_stack = ctx.state_stack := by
  unfold op_y; split_ifs <;> rfl

@[simp] lemma op_h_stack (ctx : ParseContext) :
    (op_h ctx).state_stack = ctx.state_stack := rfl

@[simp] lemma op_re_stack (ctx : ParseContext) (ops : List Object) :
    (op_re ctx ops).state_stack = ctx.state_stack := by
  unfold op_re; split_ifs <;> rfl

@[simp] lemma paint_stroke_stack (ctx : ParseContext) (close : Bool) :
    (paint_stroke ctx close).state_stack = ctx.state_stack := by
  unfold paint_stroke; cases close <;> dsimp only <;> split_ifs <;> rfl

@[simp] lemma paint_fill_stack (ctx : ParseContext) :
    (paint_fill ctx).state_stack = ctx.state_stack := by
  unfold paint_fill; split_ifs <;> rfl

@[simp] lemma paint_both_stack (ctx : ParseContext) (close : Bool) :
    (paint_both ctx close).state_stack = ctx.state_stack := by
  unfold paint_both; cases close <;> dsimp only <;> split_ifs <;> rfl

@[simp] lemma op_g_stack (ctx : ParseContext) (ops : List Object) :
    (op_g ctx ops).state_stack.length = ctx.state_stack.length := by
  unfold op_g; cases h : get_float_opt ops 0 <;> simp [h]

@[simp] lemma op_G_stack (ctx : ParseContext) (ops : List Object) :
    (op_G ctx ops).state_stack.length = ctx.state_stack.length := by
  unfold op_G; cases h : get_float_opt ops 0 <;> simp [h]

@[simp] lemma op_rg_stack (ctx : ParseContext) (ops : List Object) :
    (op_rg ctx ops).state_stack.length = ctx.state_stack.length := by
  unfold op_rg; split_ifs <;> simp

@[simp] lemma op_RG_stack (ctx : ParseContext) (ops : List Object) :
    (op_RG ctx ops).state_stack.length = ctx.state_stack.length := by
  unfold op_RG; split_ifs <;> simp

@[simp] lemma op_k_stack (ctx : ParseContext) (ops : List Object) :
    (op_k ctx ops).state_stack.length = ctx.state_stack.length := by
  unfold op_k; split_ifs <;> simp

@[simp] lemma op_K_stack (ctx : ParseContext) (ops : List Object) :
    (op_K ctx ops).state_stack.length = ctx.state_stack.length := by
  unfold op_K; split_ifs <;> simp

@[simp] lemma op_Tf_stack (ctx : ParseContext) (ops : List Object) :
    (op_Tf ctx ops).state_stack.length = ctx.state_stack.length := by
  unfold op_Tf
  split_ifs <;> cases h : (ops.headD .Null).asName <;> simp [h]

@[simp] lemma op_BT_stack (ctx : ParseContext) :
    (op_BT ctx).state_stack.length = ctx.state_stack.length := by
  unfold op_BT; simp

@[simp] lemma op_Tm_stack (ctx : ParseContext) (ops : List Object) :
    (op_Tm ctx ops).state_stack.length = ctx.state_stack.length := by
  unfold op_Tm; split_ifs <;> simp

@[simp] lemma op_Td_stack (ctx : ParseContext) (ops : List Object) :
    (op_Td ctx ops).state_stack.length = ctx.state_stack.length := by
  unfold op_Td
  cases h0 : get_float_opt ops 0 <;> cases h1 : get_float_opt ops 1 <;> simp [h0, h1]

@[simp] lemma op_TD_stack (ctx : ParseContext) (ops : List Object) :
    (op_TD ctx ops).state_stack.length = ctx.state_stack.length := by
  unfold op_TD
  cases h0 : get_float_opt ops 0 <;> cases h1 : get_float_opt ops 1 <;> simp [h0, h1]

@[simp] lemma op_Tstar_stack (ctx : ParseContext) :
    (op_Tstar ctx).state_stack.length = ctx.state_stack.length := by
  unfold op_Tstar; simp

@[simp] lemma op_Tj_stack (ctx : ParseContext) (ops : List Object) :
    (op_Tj ctx ops).state_stack = ctx.state_stack := by
  unfold op_Tj
  cases h : extract_string ops 0 <;> simp only [h] <;> (try split_ifs) <;> rfl

@[simp] lemma op_TJ_stack (ctx : ParseContext) (ops : List Object) :
    (op_TJ ctx ops).state_stack = ctx.state_stack := by
  unfold op_TJ
  cases ops with
  | nil => rfl
  | cons o t => cases h : o.asArray <;> simp only [h] <;> (try split_ifs) <;> rfl

@[simp] lemma op_quote_stack (ctx : ParseContext) (ops : List Object) :
    (op_quote ctx ops).state_stack.length = ctx.state_stack.length := by
  unfold op_quote; rw [op_Tj_stack]; simp

@[simp] lemma op_dquote_stack (ctx : ParseContext) (ops : List Object) :
    (op_dquote ctx ops).state_stack.length = ctx.state_stack.length := by
  unfold op_dquote
  split_ifs
  · cases h : extract_string ops 2 <;> simp only [h] <;>
      first
      | (split_ifs <;> simp)
      | simp
  · rfl

set_option maxHeartbeats 1000000 in
/-- One step of the dispatcher never shrinks the state stack below one
entry. -/
lemma process_operator_stack_length (ctx : ParseContext) (op : String) (ops : List Object)
    (h : 1 ≤ ctx.state_stack.length) :
    1 ≤ (process_operator ctx op ops).state_stack.length := by
  unfold process_operator
  cases classify op <;>
    (try cases get_float_opt ops 0) <;>
    (try split_ifs) <;>
    simp only [op_cm_stack, op_w_stack, op_m_stack, op_l_stack, op_c_stack, op_v_stack,
      op_y_stack, op_h_stack, op_re_stack, paint_stroke_stack, paint_fill_stack,
      paint_both_stack, op_g_stack, op_G_stack, op_rg_stack, op_RG_stack, op_k_stack,
      op_K_stack, op_Tf_stack, op_BT_stack, op_Tm_stack, op_Td_stack, op_TD_stack,
      op_Tstar_stack, op_Tj_stack, op_TJ_stack, op_quote_stack, op_dquote_stack,
      withTop_stack_length, List.length_cons, List.length_tail] <;>
    omega

end ParseContext

namespace ParseContext

/-- On an all-default stack the current state read is the default. -/
lemma state_eq_default (ctx : ParseContext)
    (hc : ∀ s ∈ ctx.state_stack, s = GraphicsState.default) :
    ctx.state = GraphicsState.default := by
  unfold state
  cases h : ctx.state_stack with
  | nil => rfl
  | cons a t =>
    have := hc a (by rw [h]; exact List.mem_cons_self a t)
    simp [this]

/-- A `q` or `Q` step preserves "every stack entry is the default". -/
lemma step_qQ_default (ctx : ParseContext) (op : String) (ops : List Object)
    (hop : op = "q" ∨ op = "Q")
    (hc : ∀ s ∈ ctx.state_stack, s = GraphicsState.default) :
    ∀ s ∈ (process_operator ctx op ops).state_stack, s = GraphicsState.default := by
  rcases hop with h | h <;> subst h
  · simp only [process_q]
    intro s hs
    rcases List.mem_cons.mp hs with h1 | h2
    · subst h1; exact state_eq_default ctx hc
    · exact hc s h2
  · simp only [process_Q]
    split_ifs
    · intro s hs; exact hc s (List.mem_of_mem_tail hs)
    · exact hc

end ParseContext

/-- The interpreter's state stack never drops below one entry. -/
lemma runOps_stack_le (ops : List (String × List Object)) (H : ℚ) :
    1 ≤ (runOps ops H).state_stack.length := by
  suffices h : ∀ (l : List (String × List Object)) (ctx : ParseContext),
      1 ≤ ctx.state_stack.length →
      1 ≤ (l.foldl (fun c p => ParseContext.process_operator c p.1 p.2) ctx).state_stack.length by
    exact h ops (ParseContext.new H) (by simp [ParseContext.new])
  intro l
  induction l with
  | nil => intro ctx hc; simpa
  | cons p t ih =>
    intro ctx hc
    exact ih _ (ParseContext.process_operator_stack_length _ _ _ hc)

/-- After a stream of only `q`/`Q`, every stack entry is the default
state. -/
lemma runOps_qQ_all_default (ops : List (String × List Object)) (H : ℚ)
    (hops : ∀ p ∈ ops, p.1 = "q" ∨ p.1 = "Q") :
    ∀ s ∈ (runOps ops H).state_stack, s = GraphicsState.default := by
  suffices h : ∀ (l : List (String × List Object)) (ctx : ParseContext),
      (∀ p ∈ l, p.1 = "q" ∨ p.1 = "Q") →
      (∀ s ∈ ctx.state_stack, s = GraphicsState.default) →
      ∀ s ∈ (l.foldl (fun c p => ParseContext.process_operator c p.1 p.2) ctx).state_stack,
        s = GraphicsState.default by
    exact h ops (ParseContext.new H) hops (by simp [ParseContext.new])
  intro l
  induction l with
  | nil => intro ctx _ hc; simpa
  | cons p t ih =>
    intro ctx hl hc
    exact ih _ (fun r hr => hl r (List.mem_cons_of_mem p hr))
      (ParseContext.step_qQ_default ctx p.1 p.2 (hl p (List.mem_cons_self p t)) hc)

/-- C1: applying `M.multiply(N)` to a point equals applying `M` first
and then `N` to the result (the PDF composition convention of
`TransformMatrix::multiply` and `transform_point`). -/
theorem multiply_is_forward_composition (M N : TransformMatrix) (x y : ℚ) :
    (M.multiply N).transform_point x y =
      N.transform_point (M.transform_point x y).1 (M.transform_point x y).2 := by
  simp only [TransformMatrix.multiply, TransformMatrix.transform_point]
  rw [Prod.ext_iff]
  constructor <;> dsimp only <;> ring

/-- C2: for every operator stream the graphics-state stack keeps depth
at least 1; a `Q` at depth 1 is a silent no-op; and after any stream of
only `q`/`Q` the state read is the original default state. -/
theorem state_stack_never_underflows (H : ℚ) (ops : List (String × List Object)) :
    1 ≤ (runOps ops H).state_stack.length ∧
    (∀ (ctx : ParseContext) (operands : List Object), ctx.state_stack.length = 1 →
      ParseContext.process_operator ctx "Q" operands = ctx) ∧
    ((∀ p ∈ ops, p.1 = "q" ∨ p.1 = "Q") → (runOps ops H).state = GraphicsState.default) := by
  refine ⟨runOps_stack_le ops H, ?_, ?_⟩
  · intro ctx operands h1
    simp [ParseContext.process_Q, h1]
  · intro hq
    exact ParseContext.state_eq_default _ (runOps_qQ_all_default ops H hq)

/-- Witness for C2 at a concrete stream with two leading excess `Q` and
two trailing `Q` against one `q`. -/
theorem state_stack_never_underflows_witness :
    1 ≤ (runOps [("Q", []), ("Q", []), ("q", []), ("Q", []), ("Q", [])] 100).state_stack.length ∧
    ParseContext.process_operator (ParseContext.new 100) "Q" [] = ParseContext.new 100 ∧
    (runOps [("Q", []), ("Q", []), ("q", []), ("Q", []), ("Q", [])] 100).state =
      GraphicsState.default := by
  obtain ⟨h1, h2, h3⟩ :=
    state_stack_never_underflows 100 [("Q", []), ("Q", []), ("q", []), ("Q", []), ("Q", [])]
  exact ⟨h1, h2 (ParseContext.new 100) [] rfl, h3 (by decide)⟩

/-- A successful numeric operand lookup implies the index is in range. -/
lemma get_float_opt_lt (ops : List Object) (idx : Nat) (v : ℚ)
    (h : get_float_opt ops idx = some v) : idx < ops.length := by
  by_contra hlt
  have hnone : ops[idx]? = none := List.getElem?_eq_none (Nat.le_of_not_lt hlt)
  unfold get_float_opt at h
  rw [hnone] at h
  simp at h

/-- `get_float` agrees with a successful `get_float_opt`. -/
lemma get_float_eq_of_opt (ops : List Object) (idx : Nat) (v : ℚ)
    (h : get_float_opt ops idx = some v) : get_float ops idx = v := by
  unfold get_float
  rw [h]
  rfl

/-- The operator stream of the end-to-end scenario in the spec: scale by
2, fill a 10×10 rectangle at the origin, page height 100. -/
def c3Stream : List (String × List Object) :=
  [("q", []),
   ("cm", [.Integer 2, .Integer 0, .Integer 0, .Integer 2, .Integer 0, .Integer 0]),
   ("re", [.Integer 0, .Integer 0, .Integer 10, .Integer 10]),
   ("f", []),
   ("Q", [])]

set_option maxRecDepth 10000 in
set_option maxHeartbeats 1000000 in
/-- C3: the end-to-end scenario produces no text and exactly one path
with fill color set, stroke color unset, and bounding box
`x ∈ [0,20]`, `y ∈ [80,100]`. -/
theorem end_to_end_scaled_rectangle :
    (runOps c3Stream 100).texts = [] ∧
    (runOps c3Stream 100).paths.map (fun p => (p.fill_color.isSome, p.stroke_color, p.bounds)) =
      [(true, none, Bounds.new 0 80 20 20)] := by
  norm_num [runOps, c3Stream, ParseContext.new,
    ParseContext.op_cm, ParseContext.op_re, ParseContext.paint_fill, ParseContext.state,
    ParseContext.withTop, GraphicsState.default, parse_matrix, get_float, get_float_opt,
    transform_path, transform_commands, transform_command, update_bounds,
    TransformMatrix.identity, TransformMatrix.multiply, TransformMatrix.transform_point,
    TransformMatrix.scale_x, ratSqrt, f32MAX, Bounds.new, min_def, max_def,
    List.cons_ne_nil]

/-- C8: a `re` operator with four numeric operands appends exactly the
five rectangle commands, in order, and resets `path_start` and
`current_point` to `(x, y)`. -/
theorem re_expands_to_rectangle (ctx : ParseContext) (ops : List Object) (x y w h : ℚ)
    (h0 : get_float_opt ops 0 = some x) (h1 : get_float_opt ops 1 = some y)
    (h2 : get_float_opt ops 2 = some w) (h3 : get_float_opt ops 3 = some h) :
    (ParseContext.process_operator ctx "re" ops).current_path =
      ctx.current_path ++
        [.MoveTo x y, .LineTo (x + w) y, .LineTo (x + w) (y + h), .LineTo x (y + h),
          .ClosePath] ∧
    (ParseContext.process_operator ctx "re" ops).path_start = (x, y) ∧
    (ParseContext.process_operator ctx "re" ops).current_point = (x, y) := by
  have hlen : ops.length ≥ 4 := get_float_opt_lt ops 3 h h3
  simp only [ParseContext.process_re]
  unfold ParseContext.op_re
  rw [if_pos hlen, get_float_eq_of_opt ops 0 x h0, get_float_eq_of_opt ops 1 y h1,
    get_float_eq_of_opt ops 2 w h2, get_float_eq_of_opt ops 3 h h3]
  exact ⟨rfl, rfl, rfl⟩

/-- Witness for C8: `re 1 2 3 4` on a fresh context. -/
theorem re_expands_to_rectangle_witness :
    (ParseContext.process_operator (ParseContext.new 100) "re"
        [.Integer 1, .Integer 2, .Integer 3, .Integer 4]).current_path =
      [] ++
        [.MoveTo 1 2, .LineTo (1 + 3) 2, .LineTo (1 + 3) (2 + 4), .LineTo 1 (2 + 4),
          .ClosePath] ∧
    (ParseContext.process_operator (ParseContext.new 100) "re"
        [.Integer 1, .Integer 2, .Integer 3, .Integer 4]).path_start = (1, 2) ∧
    (ParseContext.process_operator (ParseContext.new 100) "re"
        [.Integer 1, .Integer 2, .Integer 3, .Integer 4]).current_point = (1, 2) :=
  re_expands_to_rectangle (ParseContext.new 100)
    [.Integer 1, .Integer 2, .Integer 3, .Integer 4] 1 2 3 4 rfl rfl rfl rfl

/-- C9: `create_text` positions every record by the documented formulas:
`x` is the translation `e` of `CTM · text_matrix`, the effective font
size is the nominal size times the `0.1`-floored `|scale_y|`, the
emitted `y` is `page_height − (f + text_rise) − 0.8·effective_size`, and
the stored transform is `CTM · text_matrix`. -/
theorem create_text_position_formulas (text : List Nat) (state : GraphicsState) (H : ℚ) :
    (create_text text state H).x = (state.ctm.multiply state.text_matrix).e ∧
    (create_text text state H).font_size =
      state.font_size * max |(state.ctm.multiply state.text_matrix).scale_y| (1/10) ∧
    (create_text text state H).y =
      H - ((state.ctm.multiply state.text_matrix).f + state.text_rise) -
        state.font_size * max |(state.ctm.multiply state.text_matrix).scale_y| (1/10) * (8/10) ∧
    (create_text text state H).transform = state.ctm.multiply state.text_matrix := by
  unfold create_text
  exact ⟨rfl, rfl, rfl, rfl⟩

/-- C10: a `Tf` whose first operand is not a `Name` still sets the
font size from the second operand (defaulting to 0 when that operand is
non-numeric) while leaving the font name untouched. -/
theorem Tf_sets_size_without_name (ctx : ParseContext) (ops : List Object)
    (hlen : ops.length ≥ 2) (hname : (ops.headD .Null).asName = none) :
    ParseContext.process_operator ctx "Tf" ops =
      ParseContext.withTop (fun s => { s with font_size := get_float ops 1 }) ctx ∧
    (get_float_opt ops 1 = none → get_float ops 1 = 0) := by
  constructor
  · simp only [ParseContext.process_Tf]
    unfold ParseContext.op_Tf
    rw [if_pos hlen, hname]
  · intro h
    unfold get_float
    rw [h]
    rfl

/-- Witness for C10: `Tf` with an integer in the name slot and a
non-numeric size operand. -/
theorem Tf_sets_size_without_name_witness :
    ParseContext.process_operator (ParseContext.new 100) "Tf" [.Integer 5, .Null] =
      ParseContext.withTop (fun s => { s with font_size := get_float [.Integer 5, .Null] 1 })
        (ParseContext.new 100) ∧
    get_float [.Integer 5, .Null] 1 = 0 := by
  obtain ⟨h1, h2⟩ :=
    Tf_sets_size_without_name (ParseContext.new 100) [.Integer 5, .Null] (by decide) rfl
  exact ⟨h1, h2 rfl⟩

/-! ### C4: paint operators on an empty buffer -/

/-- Counterexample to C4: the closed-stroke paint `s` on an empty buffer
emits a path (the trailing `ClosePath` is pushed before the emptiness
check), so the output path list does not stay unchanged. -/
theorem closed_stroke_on_empty_buffer_emits :
    (ParseContext.new 100).current_path = [] ∧
    (ParseContext.new 100).paths.length = 0 ∧
    ((ParseContext.process_operator (ParseContext.new 100) "s" []).paths).length = 1 := by
  decide

/-- C4 amended: with an empty buffer the non-closing paint operators
(`S`,`f`,`F`,`f*`,`B`,`B*`,`n`) emit nothing, while the closed variants
(`s`,`b`,`b*`) first append `ClosePath` and therefore emit one
single-`ClosePath` path. -/
theorem paint_empty_buffer_behavior (ctx : ParseContext) (operands : List Object)
    (h : ctx.current_path = []) :
    ((ParseContext.process_operator ctx "S" operands).paths = ctx.paths ∧
     (ParseContext.process_operator ctx "f" operands).paths = ctx.paths ∧
     (ParseContext.process_operator ctx "F" operands).paths = ctx.paths ∧
     (ParseContext.process_operator ctx "f*" operands).paths = ctx.paths ∧
     (ParseContext.process_operator ctx "B" operands).paths = ctx.paths ∧
     (ParseContext.process_operator ctx "B*" operands).paths = ctx.paths ∧
     (ParseContext.process_operator ctx "n" operands).paths = ctx.paths) ∧
    ((ParseContext.process_operator ctx "s" operands).paths =
       ctx.paths ++ [transform_path [.ClosePath] (some ctx.state.stroke_color) none
         ctx.state.line_width ctx.state.ctm ctx.page_height] ∧
     (ParseContext.process_operator ctx "b" operands).paths =
       ctx.paths ++ [transform_path [.ClosePath] (some ctx.state.stroke_color)
         (some ctx.state.fill_color) ctx.state.line_width ctx.state.ctm ctx.page_height] ∧
     (ParseContext.process_operator ctx "b*" operands).paths =
       ctx.paths ++ [transform_path [.ClosePath] (some ctx.state.stroke_color)
         (some ctx.state.fill_color) ctx.state.line_width ctx.state.ctm ctx.page_height]) := by
  refine ⟨⟨?_, ?_, ?_, ?_, ?_, ?_, ?_⟩, ?_, ?_, ?_⟩ <;>
    simp only [ParseContext.process_S, ParseContext.process_s, ParseContext.process_f,
      ParseContext.process_F, ParseContext.process_fstar, ParseContext.process_B,
      ParseContext.process_Bstar, ParseContext.process_b, ParseContext.process_bstar,
      ParseContext.process_n] <;>
    simp [ParseContext.paint_stroke, ParseContext.paint_fill, ParseContext.paint_both,
      h, ParseContext.state]

/-- Witness for C4 amended on a fresh context. -/
theorem paint_empty_buffer_behavior_witness :
    ((ParseContext.process_operator (ParseContext.new 100) "S" []).paths =
        (ParseContext.new 100).paths ∧
     (ParseContext.process_operator (ParseContext.new 100) "f" []).paths =
        (ParseContext.new 100).paths ∧
     (ParseContext.process_operator (ParseContext.new 100) "F" []).paths =
        (ParseContext.new 100).paths ∧
     (ParseContext.process_operator (ParseContext.new 100) "f*" []).paths =
        (ParseContext.new 100).paths ∧
     (ParseContext.process_operator (ParseContext.new 100) "B" []).paths =
        (ParseContext.new 100).paths ∧
     (ParseContext.process_operator (ParseContext.new 100) "B*" []).paths =
        (ParseContext.new 100).paths ∧
     (ParseContext.process_operator (ParseContext.new 100) "n" []).paths =
        (ParseContext.new 100).paths) ∧
    ((ParseContext.process_operator (ParseContext.new 100) "s" []).paths =
       (ParseContext.new 100).paths ++ [transform_path [.ClosePath]
         (some (ParseContext.new 100).state.stroke_color) none
         (ParseContext.new 100).state.line_width (ParseContext.new 100).state.ctm
         (ParseContext.new 100).page_height] ∧
     (ParseContext.process_operator (ParseContext.new 100) "b" []).paths =
       (ParseContext.new 100).paths ++ [transform_path [.ClosePath]
         (some (ParseContext.new 100).state.stroke_color)
         (some (ParseContext.new 100).state.fill_color)
         (ParseContext.new 100).state.line_width (ParseContext.new 100).state.ctm
         (ParseContext.new 100).page_height] ∧
     (ParseContext.process_operator (ParseContext.new 100) "b*" []).paths =
       (ParseContext.new 100).paths ++ [transform_path [.ClosePath]
         (some (ParseContext.new 100).state.stroke_color)
         (some (ParseContext.new 100).state.fill_color)
         (ParseContext.new 100).state.line_width (ParseContext.new 100).state.ctm
         (ParseContext.new 100).page_height]) :=
  paint_empty_buffer_behavior (ParseContext.new 100) [] rfl

/-! ### C5: string-operand decoding -/

/-- A byte string starting with `0xFE` is never valid UTF-8. -/
lemma utf8Decode_cons_FE (l : List Nat) : utf8Decode (0xFE :: l) = none := by
  have h1 : utf8DecodeOne (0xFE :: l) = none := by simp [utf8DecodeOne]
  show utf8DecodeLoop (0xFE :: l).length (0xFE :: l) = none
  rw [List.length_cons]
  simp [utf8DecodeLoop, h1]

/-- Counterexample to C5: `Tj` bytes `FE FF 41` begin with the UTF-16BE
BOM but have an odd remainder; the decode returns nothing and the
(non-whitespace) text is dropped instead of falling back. -/
theorem bom_with_invalid_utf16_drops_text :
    extract_text_from_object (.String [0xFE, 0xFF, 0x41] .literal) = none ∧
    (ParseContext.process_operator (ParseContext.new 100) "Tj"
      [.String [0xFE, 0xFF, 0x41] .literal]).texts = [] := by
  decide

/-- C5 amended: valid UTF-8 decodes as UTF-8; a BOM-prefixed string
decodes its remainder as UTF-16BE and, when that fails (odd byte count
or invalid UTF-16), yields nothing — the `Tj` emits no text, with no
lossy fallback; only non-BOM invalid UTF-8 takes the lossy path. -/
theorem string_decoding_behavior :
    (∀ (bytes : List Nat) (fmt : PdfStrFormat) (cps : List Nat), utf8Decode bytes = some cps →
       extract_text_from_object (.String bytes fmt) = some cps) ∧
    (∀ (rest : List Nat) (fmt : PdfStrFormat),
       extract_text_from_object (.String (0xFE :: 0xFF :: rest) fmt) = decode_utf16be rest) ∧
    (∀ (bytes : List Nat) (fmt : PdfStrFormat) (b0 b1 : Nat) (t : List Nat),
       utf8Decode bytes = none → bytes = b0 :: b1 :: t → ¬(b0 = 0xFE ∧ b1 = 0xFF) →
       extract_text_from_object (.String bytes fmt) = some (utf8Lossy bytes)) ∧
    (∀ (ctx : ParseContext) (rest : List Nat) (fmt : PdfStrFormat),
       decode_utf16be rest = none →
       (ParseContext.process_operator ctx "Tj" [.String (0xFE :: 0xFF :: rest) fmt]).texts =
         ctx.texts) := by
  refine ⟨?_, ?_, ?_, ?_⟩
  · intro bytes fmt cps h
    simp [extract_text_from_object, h]
  · intro rest fmt
    simp [extract_text_from_object, utf8Decode_cons_FE]
  · intro bytes fmt b0 b1 t hu he hb
    subst he
    rcases Decidable.not_and_iff_or_not.mp hb with h0 | h1
    · simp [extract_text_from_object, hu, h0]
    · simp [extract_text_from_object, hu, h1]
  · intro ctx rest fmt hnone
    simp only [ParseContext.process_Tj]
    unfold ParseContext.op_Tj extract_string
    simp [extract_text_from_object, utf8Decode_cons_FE, hnone]

/-- Witness for C5 amended: plain ASCII, a BOM with odd remainder, and a
lone invalid lead byte. -/
theorem string_decoding_behavior_witness :
    extract_text_from_object (.String (strBytes "A") .literal) = some [65] ∧
    extract_text_from_object (.String [0xFE, 0xFF, 0x41] .literal) = decode_utf16be [0x41] ∧
    extract_text_from_object (.String [0xC0, 0x41] .literal) = some (utf8Lossy [0xC0, 0x41]) ∧
    (ParseContext.process_operator (ParseContext.new 100) "Tj"
      [.String [0xFE, 0xFF, 0x41] .literal]).texts = (ParseContext.new 100).texts := by
  obtain ⟨h1, h2, h3, h4⟩ := string_decoding_behavior
  exact ⟨h1 (strBytes "A") .literal [65] (by decide),
    h2 [0x41] .literal,
    h3 [0xC0, 0x41] .literal 0xC0 0x41 [] (by decide) rfl (by decide),
    h4 (ParseContext.new 100) [0x41] .literal (by decide)⟩

/-! ### C6: wrong-typed numeric operands -/

/-- Counterexample to C6: `m` with the required two operands but
non-numeric values is skipped entirely — no `MoveTo(0,0)` is appended
and the context is unchanged. -/
theorem moveto_nonnumeric_operand_skipped :
    ParseContext.process_operator (ParseContext.new 100) "m" [.Null, .Null] =
      ParseContext.new 100 := by
  decide

namespace ParseContext

/-- Rewriting the top stack entry is visible through `state` whenever the
stack is nonempty. -/
lemma withTop_state (f : GraphicsState → GraphicsState) (ctx : ParseContext)
    (h : 1 ≤ ctx.state_stack.length) : (withTop f ctx).state = f ctx.state := by
  cases hs : ctx.state_stack with
  | nil => rw [hs] at h; simp at h
  | cons a t => simp [withTop, state, hs]

/-- The `"` operator with three operands always stores the coerced
word/char spacings in the current state, whatever its text operand is. -/
lemma op_dquote_spacings (ctx : ParseContext) (ops : List Object)
    (hlen : ops.length ≥ 3) (hstack : 1 ≤ ctx.state_stack.length) :
    (op_dquote ctx ops).state.word_spacing = get_float ops 0 ∧
    (op_dquote ctx ops).state.char_spacing = get_float ops 1 := by
  unfold op_dquote
  rw [if_pos hlen]
  cases hs : ctx.state_stack with
  | nil => rw [hs] at hstack; simp at hstack
  | cons a t =>
    constructor <;>
      cases h : extract_string ops 2 <;>
      simp only [h, op_Tstar, withTop, state, hs] <;>
      (try split_ifs) <;>
      simp [withTop, state]

end ParseContext

/-- C6 amended: operators reading operands via `get_float_opt`
(`m`,`l`,`Td`,`TD` on two operands; `w`,`g`,`G`,`Tc`,`Tw`,`TL`,`Ts` on
one) are skipped entirely when a required operand is non-numeric;
operators that only check the operand count (`cm`,`c`,`Tm` with six,
`v`,`y`,`re`,`k`,`K` with four, `rg`,`RG` with three, the `Tf` size and
the `"` spacings) coerce wrong-typed operands to the default `0.0` via
`get_float` and still take effect; the dispatcher is total either
way. -/
theorem numeric_coercion_behavior (ctx : ParseContext) (ops : List Object) :
    ((get_float_opt ops 0 = none ∨ get_float_opt ops 1 = none) →
       ParseContext.process_operator ctx "m" ops = ctx ∧
       ParseContext.process_operator ctx "l" ops = ctx ∧
       ParseContext.process_operator ctx "Td" ops = ctx ∧
       ParseContext.process_operator ctx "TD" ops = ctx) ∧
    (get_float_opt ops 0 = none →
       ParseContext.process_operator ctx "w" ops = ctx ∧
       ParseContext.process_operator ctx "g" ops = ctx ∧
       ParseContext.process_operator ctx "G" ops = ctx ∧
       ParseContext.process_operator ctx "Tc" ops = ctx ∧
       ParseContext.process_operator ctx "Tw" ops = ctx ∧
       ParseContext.process_operator ctx "TL" ops = ctx ∧
       ParseContext.process_operator ctx "Ts" ops = ctx) ∧
    (ops.length ≥ 6 →
       ParseContext.process_operator ctx "cm" ops =
         ParseContext.withTop
           (fun s => { s with ctm := s.ctm.multiply (parse_matrix ops) }) ctx ∧
       ParseContext.process_operator ctx "c" ops =
         { ctx with
           current_path := ctx.current_path ++
             [.CurveTo (get_float ops 0) (get_float ops 1) (get_float ops 2)
               (get_float ops 3) (get_float ops 4) (get_float ops 5)]
           current_point := (get_float ops 4, get_float ops 5) } ∧
       ParseContext.process_operator ctx "Tm" ops =
         ParseContext.withTop
           (fun s => { s with
             text_matrix := parse_matrix ops
             line_matrix := parse_matrix ops }) ctx) ∧
    (ops.length ≥ 4 →
       ParseContext.process_operator ctx "v" ops =
         { ctx with
           current_path := ctx.current_path ++
             [.CurveTo ctx.current_point.1 ctx.current_point.2 (get_float ops 0)
               (get_float ops 1) (get_float ops 2) (get_float ops 3)]
           current_point := (get_float ops 2, get_float ops 3) } ∧
       ParseContext.process_operator ctx "y" ops =
         { ctx with
           current_path := ctx.current_path ++
             [.CurveTo (get_float ops 0) (get_float ops 1) (get_float ops 2)
               (get_float ops 3) (get_float ops 2) (get_float ops 3)]
           current_point := (get_float ops 2, get_float ops 3) } ∧
       ParseContext.process_operator ctx "re" ops =
         { ctx with
           current_path := ctx.current_path ++
             [.MoveTo (get_float ops 0) (get_float ops 1),
               .LineTo (get_float ops 0 + get_float ops 2) (get_float ops 1),
               .LineTo (get_float ops 0 + get_float ops 2) (get_float ops 1 + get_float ops 3),
               .LineTo (get_float ops 0) (get_float ops 1 + get_float ops 3), .ClosePath]
           path_start := (get_float ops 0, get_float ops 1)
           current_point := (get_float ops 0, get_float ops 1) } ∧
       ParseContext.process_operator ctx "k" ops =
         ParseContext.withTop (fun s => { s with fill_color :=
           ⟨(cmyk_to_rgb (get_float ops 0) (get_float ops 1) (get_float ops 2)
               (get_float ops 3)).1,
            (cmyk_to_rgb (get_float ops 0) (get_float ops 1) (get_float ops 2)
               (get_float ops 3)).2.1,
            (cmyk_to_rgb (get_float ops 0) (get_float ops 1) (get_float ops 2)
               (get_float ops 3)).2.2, 1⟩ }) ctx ∧
       ParseContext.process_operator ctx "K" ops =
         ParseContext.withTop (fun s => { s with stroke_color :=
           ⟨(cmyk_to_rgb (get_float ops 0) (get_float ops 1) (get_float ops 2)
               (get_float ops 3)).1,
            (cmyk_to_rgb (get_float ops 0) (get_float ops 1) (get_float ops 2)
               (get_float ops 3)).2.1,
            (cmyk_to_rgb (get_float ops 0) (get_float ops 1) (get_float ops 2)
               (get_float ops 3)).2.2, 1⟩ }) ctx) ∧
    (ops.length ≥ 3 →
       ParseContext.process_operator ctx "rg" ops =
         ParseContext.withTop (fun s => { s with fill_color :=
           ⟨get_float ops 0, get_float ops 1, get_float ops 2, 1⟩ }) ctx ∧
       ParseContext.process_operator ctx "RG" ops =
         ParseContext.withTop (fun s => { s with stroke_color :=
           ⟨get_float ops 0, get_float ops 1, get_float ops 2, 1⟩ }) ctx) ∧
    (ops.length ≥ 2 → 1 ≤ ctx.state_stack.length →
       (ParseContext.process_operator ctx "Tf" ops).state.font_size = get_float ops 1) ∧
    (ops.length ≥ 3 → 1 ≤ ctx.state_stack.length →
       (ParseContext.process_operator ctx (String.mk [Char.ofNat 34]) ops).state.word_spacing =
         get_float ops 0 ∧
       (ParseContext.process_operator ctx (String.mk [Char.ofNat 34]) ops).state.char_spacing =
         get_float ops 1) ∧
    (∀ idx : Nat, get_float_opt ops idx = none → get_float ops idx = 0) := by
  refine ⟨?_, ?_, ?_, ?_, ?_, ?_, ?_, ?_⟩
  · intro h
    refine ⟨?_, ?_, ?_, ?_⟩
    · simp only [ParseContext.process_m]; unfold ParseContext.op_m
      cases h0 : get_float_opt ops 0 <;> cases h1 : get_float_opt ops 1 <;> simp_all
    · simp only [ParseContext.process_l]; unfold ParseContext.op_l
      cases h0 : get_float_opt ops 0 <;> cases h1 : get_float_opt ops 1 <;> simp_all
    · simp only [ParseContext.process_Td]; unfold ParseContext.op_Td
      cases h0 : get_float_opt ops 0 <;> cases h1 : get_float_opt ops 1 <;> simp_all
    · simp only [ParseContext.process_TD]; unfold ParseContext.op_TD
      cases h0 : get_float_opt ops 0 <;> cases h1 : get_float_opt ops 1 <;> simp_all
  · intro h
    refine ⟨?_, ?_, ?_, ?_, ?_, ?_, ?_⟩
    · simp only [ParseContext.process_w]; unfold ParseContext.op_w; simp [h]
    · simp only [ParseContext.process_g]; unfold ParseContext.op_g; simp [h]
    · simp only [ParseContext.process_G]; unfold ParseContext.op_G; simp [h]
    · simp only [ParseContext.process_Tc]; simp [h]
    · simp only [ParseContext.process_Tw]; simp [h]
    · simp only [ParseContext.process_TL]; simp [h]
    · simp only [ParseContext.process_Ts]; simp [h]
  · intro hlen
    refine ⟨?_, ?_, ?_⟩
    · simp only [ParseContext.process_cm]; unfold ParseContext.op_cm; rw [if_pos hlen]
    · simp only [ParseContext.process_c]; unfold ParseContext.op_c; rw [if_pos hlen]
    · simp only [ParseContext.process_Tm]; unfold ParseContext.op_Tm; rw [if_pos hlen]
  · intro hlen
    refine ⟨?_, ?_, ?_, ?_, ?_⟩
    · simp only [ParseContext.process_v]; unfold ParseContext.op_v; rw [if_pos hlen]
    · simp only [ParseContext.process_y]; unfold ParseContext.op_y; rw [if_pos hlen]
    · simp only [ParseContext.process_re]; unfold ParseContext.op_re; rw [if_pos hlen]
    · simp only [ParseContext.process_k]; unfold ParseContext.op_k; rw [if_pos hlen]
    · simp only [ParseContext.process_K]; unfold ParseContext.op_K; rw [if_pos hlen]
  · intro hlen
    constructor
    · simp only [ParseContext.process_rg]; unfold ParseContext.op_rg; rw [if_pos hlen]
    · simp only [ParseContext.process_RG]; unfold ParseContext.op_RG; rw [if_pos hlen]
  · intro hlen hstack
    simp only [ParseContext.process_Tf]; unfold ParseContext.op_Tf
    rw [if_pos hlen]
    cases hn : (ops.headD .Null).asName
    · dsimp only
      rw [ParseContext.withTop_state _ _ hstack]
    · dsimp only
      rw [ParseContext.withTop_state _ _
        (by rw [ParseContext.withTop_stack_length]; exact hstack)]
  · intro hlen hstack
    simp only [ParseContext.process_dquote]
    exact ParseContext.op_dquote_spacings ctx ops hlen hstack
  · intro idx h
    unfold get_float
    rw [h]
    rfl

/-- Witness for C6 amended: six `Null` operands on a fresh context,
exercising every skip and every coercion conjunct. -/
theorem numeric_coercion_behavior_witness :
    (ParseContext.process_operator (ParseContext.new 100) "m"
        (List.replicate 6 Object.Null) = ParseContext.new 100 ∧
     ParseContext.process_operator (ParseContext.new 100) "l"
        (List.replicate 6 Object.Null) = ParseContext.new 100 ∧
     ParseContext.process_operator (ParseContext.new 100) "Td"
        (List.replicate 6 Object.Null) = ParseContext.new 100 ∧
     ParseContext.process_operator (ParseContext.new 100) "TD"
        (List.replicate 6 Object.Null) = ParseContext.new 100) ∧
    (ParseContext.process_operator (ParseContext.new 100) "w"
        (List.replicate 6 Object.Null) = ParseContext.new 100 ∧
     ParseContext.process_operator (ParseContext.new 100) "g"
        (List.replicate 6 Object.Null) = ParseContext.new 100 ∧
     ParseContext.process_operator (ParseContext.new 100) "G"
        (List.replicate 6 Object.Null) = ParseContext.new 100 ∧
     ParseContext.process_operator (ParseContext.new 100) "Tc"
        (List.replicate 6 Object.Null) = ParseContext.new 100 ∧
     ParseContext.process_operator (ParseContext.new 100) "Tw"
        (List.replicate 6 Object.Null) = ParseContext.new 100 ∧
     ParseContext.process_operator (ParseContext.new 100) "TL"
        (List.replicate 6 Object.Null) = ParseContext.new 100 ∧
     ParseContext.process_operator (ParseContext.new 100) "Ts"
        (List.replicate 6 Object.Null) = ParseContext.new 100) ∧
    (ParseContext.process_operator (ParseContext.new 100) "cm"
        (List.replicate 6 Object.Null) =
       ParseContext.withTop
         (fun s => { s with
           ctm := s.ctm.multiply (parse_matrix (List.replicate 6 Object.Null)) })
         (ParseContext.new 100) ∧
     ParseContext.process_operator (ParseContext.new 100) "c"
        (List.replicate 6 Object.Null) =
       { ParseContext.new 100 with
         current_path := (ParseContext.new 100).current_path ++
           [.CurveTo (get_float (List.replicate 6 Object.Null) 0)
             (get_float (List.replicate 6 Object.Null) 1)
             (get_float (List.replicate 6 Object.Null) 2)
             (get_float (List.replicate 6 Object.Null) 3)
             (get_float (List.replicate 6 Object.Null) 4)
             (get_float (List.replicate 6 Object.Null) 5)]
         current_point := (get_float (List.replicate 6 Object.Null) 4,
           get_float (List.replicate 6 Object.Null) 5) } ∧
     ParseContext.process_operator (ParseContext.new 100) "Tm"
        (List.replicate 6 Object.Null) =
       ParseContext.withTop
         (fun s => { s with
           text_matrix := parse_matrix (List.replicate 6 Object.Null)
           line_matrix := parse_matrix (List.replicate 6 Object.Null) })
         (ParseContext.new 100)) ∧
    (ParseContext.process_operator (ParseContext.new 100) "v"
        (List.replicate 6 Object.Null) =
       { ParseContext.new 100 with
         current_path := (ParseContext.new 100).current_path ++
           [.CurveTo (ParseContext.new 100).current_point.1
             (ParseContext.new 100).current_point.2
             (get_float (List.replicate 6 Object.Null) 0)
             (get_float (List.replicate 6 Object.Null) 1)
             (get_float (List.replicate 6 Object.Null) 2)
             (get_float (List.replicate 6 Object.Null) 3)]
         current_point := (get_float (List.replicate 6 Object.Null) 2,
           get_float (List.replicate 6 Object.Null) 3) } ∧
     ParseContext.process_operator (ParseContext.new 100) "y"
        (List.replicate 6 Object.Null) =
       { ParseContext.new 100 with
         current_path := (ParseContext.new 100).current_path ++
           [.CurveTo (get_float (List.replicate 6 Object.Null) 0)
             (get_float (List.replicate 6 Object.Null) 1)
             (get_float (List.replicate 6 Object.Null) 2)
             (get_float (List.replicate 6 Object.Null) 3)
             (get_float (List.replicate 6 Object.Null) 2)
             (get_float (List.replicate 6 Object.Null) 3)]
         current_point := (get_float (List.replicate 6 Object.Null) 2,
           get_float (List.replicate 6 Object.Null) 3) } ∧
     ParseContext.process_operator (ParseContext.new 100) "re"
        (List.replicate 6 Object.Null) =
       { ParseContext.new 100 with
         current_path := (ParseContext.new 100).current_path ++
           [.MoveTo (get_float (List.replicate 6 Object.Null) 0)
             (get_float (List.replicate 6 Object.Null) 1),
            .LineTo (get_float (List.replicate 6 Object.Null) 0 +
               get_float (List.replicate 6 Object.Null) 2)
             (get_float (List.replicate 6 Object.Null) 1),
            .LineTo (get_float (List.replicate 6 Object.Null) 0 +
               get_float (List.replicate 6 Object.Null) 2)
             (get_float (List.replicate 6 Object.Null) 1 +
               get_float (List.replicate 6 Object.Null) 3),
            .LineTo (get_float (List.replicate 6 Object.Null) 0)
             (get_float (List.replicate 6 Object.Null) 1 +
               get_float (List.replicate 6 Object.Null) 3), .ClosePath]
         path_start := (get_float (List.replicate 6 Object.Null) 0,
           get_float (List.replicate 6 Object.Null) 1)
         current_point := (get_float (List.replicate 6 Object.Null) 0,
           get_float (List.replicate 6 Object.Null) 1) } ∧
     ParseContext.process_operator (ParseContext.new 100) "k"
        (List.replicate 6 Object.Null) =
       ParseContext.withTop (fun s => { s with fill_color :=
         ⟨(cmyk_to_rgb (get_float (List.replicate 6 Object.Null) 0)
             (get_float (List.replicate 6 Object.Null) 1)
             (get_float (List.replicate 6 Object.Null) 2)
             (get_float (List.replicate 6 Object.Null) 3)).1,
          (cmyk_to_rgb (get_float (List.replicate 6 Object.Null) 0)
             (get_float (List.replicate 6 Object.Null) 1)
             (get_float (List.replicate 6 Object.Null) 2)
             (get_float (List.replicate 6 Object.Null) 3)).2.1,
          (cmyk_to_rgb (get_float (List.replicate 6 Object.Null) 0)
             (get_float (List.replicate 6 Object.Null) 1)
             (get_float (List.replicate 6 Object.Null) 2)
             (get_float (List.replicate 6 Object.Null) 3)).2.2, 1⟩ })
         (ParseContext.new 100) ∧
     ParseContext.process_operator (ParseContext.new 100) "K"
        (List.replicate 6 Object.Null) =
       ParseContext.withTop (fun s => { s with stroke_color :=
         ⟨(cmyk_to_rgb (get_float (List.replicate 6 Object.Null) 0)
             (get_float (List.replicate 6 Object.Null) 1)
             (get_float (List.replicate 6 Object.Null) 2)
             (get_float (List.replicate 6 Object.Null) 3)).1,
          (cmyk_to_rgb (get_float (List.replicate 6 Object.Null) 0)
             (get_float (List.replicate 6 Object.Null) 1)
             (get_float (List.replicate 6 Object.Null) 2)
             (get_float (List.replicate 6 Object.Null) 3)).2.1,
          (cmyk_to_rgb (get_float (List.replicate 6 Object.Null) 0)
             (get_float (List.replicate 6 Object.Null) 1)
             (get_float (List.replicate 6 Object.Null) 2)
             (get_float (List.replicate 6 Object.Null) 3)).2.2, 1⟩ })
         (ParseContext.new 100)) ∧
    (ParseContext.process_operator (ParseContext.new 100) "rg"
        (List.replicate 6 Object.Null) =
       ParseContext.withTop (fun s => { s with fill_color :=
         ⟨get_float (List.replicate 6 Object.Null) 0,
          get_float (List.replicate 6 Object.Null) 1,
          get_float (List.replicate 6 Object.Null) 2, 1⟩ }) (ParseContext.new 100) ∧
     ParseContext.process_operator (ParseContext.new 100) "RG"
        (List.replicate 6 Object.Null) =
       ParseContext.withTop (fun s => { s with stroke_color :=
         ⟨get_float (List.replicate 6 Object.Null) 0,
          get_float (List.replicate 6 Object.Null) 1,
          get_float (List.replicate 6 Object.Null) 2, 1⟩ }) (ParseContext.new 100)) ∧
    (ParseContext.process_operator (ParseContext.new 100) "Tf"
        (List.replicate 6 Object.Null)).state.font_size =
      get_float (List.replicate 6 Object.Null) 1 ∧
    ((ParseContext.process_operator (ParseContext.new 100) (String.mk [Char.ofNat 34])
        (List.replicate 6 Object.Null)).state.word_spacing =
       get_float (List.replicate 6 Object.Null) 0 ∧
     (ParseContext.process_operator (ParseContext.new 100) (String.mk [Char.ofNat 34])
        (List.replicate 6 Object.Null)).state.char_spacing =
       get_float (List.replicate 6 Object.Null) 1) ∧
    get_float (List.replicate 6 Object.Null) 0 = 0 := by
  obtain ⟨h1, h2, h3, h4, h5, h6, h7, h8⟩ :=
    numeric_coercion_behavior (ParseContext.new 100) (List.replicate 6 Object.Null)
  exact ⟨h1 (Or.inl rfl), h2 rfl, h3 (by decide), h4 (by decide), h5 (by decide),
    h6 (by decide) (by decide), h7 (by decide) (by decide), h8 0 rfl⟩

/-! ### C7: TJ adjustment threshold -/

/-- Accumulating fold against a map-and-concatenate normal form; the
shape of the `combined` loop in `op_TJ`. -/
lemma foldl_append_eq_join {α β : Type} (f : α → List β) (l : List α) (acc : List β) :
    l.foldl (fun a x => a ++ f x) acc = acc ++ (l.map f).flatten := by
  induction l generalizing acc with
  | nil => simp
  | cons x t ih => simp [ih, List.append_assoc]

/-- C7: the `TJ` combined text is the concatenation of the per-element
contributions, a numeric adjustment contributes one space exactly when
it is strictly below −100, and the two worked examples decode to
"Hello World" and "HelloWorld". -/
theorem tj_space_threshold :
    (∀ arr : List Object,
       ParseContext.tjCombine arr = (arr.map ParseContext.tjItem).flatten) ∧
    (∀ q : ℚ, ParseContext.tjItem (.Real q) = if q < -100 then [0x20] else []) ∧
    (∀ i : Int, ParseContext.tjItem (.Integer i) = if (i : ℚ) < -100 then [0x20] else []) ∧
    ParseContext.tjCombine
      [.String (strBytes "Hello") .literal, .Integer (-250), .String (strBytes "World") .literal] =
      strBytes "Hello World" ∧
    ParseContext.tjCombine
      [.String (strBytes "Hello") .literal, .Integer (-50), .String (strBytes "World") .literal] =
      strBytes "HelloWorld" := by
  refine ⟨?_, fun q => rfl, fun i => rfl, by decide, by decide⟩
  intro arr
  unfold ParseContext.tjCombine
  rw [foldl_append_eq_join]
  simp
